import Mathlib

/-!
Verification of the Zepor zkp-mock HTTP service
(src/apps/zkp-mock/src/main.rs) against its specification.

The service exposes two POST endpoints:
  * /generate : parses a JSON body into a ProofRequest, logs the
    received proof_id, sleeps 2 seconds, and answers with a canned
    ProofResponse echoing the inputs;
  * /verify   : ignores the body and answers a constant JSON object
    with a single field valid set to true.

We embed the handlers shallowly.  JSON values are a Lean inductive
mirroring serde_json values (integer and non-integer numbers kept
apart, as serde_json does).  Deserialization of ProofRequest follows
the serde-derived visitor: iterate over the object's fields, reject a
duplicate of a known field, silently skip unknown fields, and fail if
a required field is missing at the end; a u32 field accepts exactly
the integer JSON numbers in the interval from 0 to 2^32 - 1.  Each
handler is modelled as the finite trace of its observable events
(stdout log lines, sleeps, the HTTP response), so that ordering of the
delay relative to the response, and the absence of further side
effects, are statable.
-/

namespace Zepor

/-- JSON values as handled by serde_json: numbers that parse as
integers are kept exactly (intNum), any other JSON number (one with a
fractional part or an exponent forcing a float representation) is a
floatNum and is rejected by integer deserializers. -/
inductive Json where
  | null : Json
  | bool (b : Bool) : Json
  | intNum (i : Int) : Json
  | floatNum (q : Rat) : Json
  | str (s : String) : Json
  | arr (elems : List Json) : Json
  | obj (fields : List (String × Json)) : Json

/-- Inbound body of /generate, from `struct ProofRequest` in main.rs.
The proof_id field is a Rust u32; the deserializer below only ever
produces values below 2^32. -/
structure ProofRequest where
  proof_id : Nat
  pdf_hash : String

/-- Outbound body of /generate, from `struct ProofResponse` in main.rs. -/
structure ProofResponse where
  proof_id : Nat
  pdf_hash : String
  zk_proof : String
  status : String

/-- Deserialize a JSON value as a Rust u32, as serde_json does: only
an integer number in the interval from 0 to 2^32 - 1 is accepted;
negative numbers, numbers at least 2^32, non-integer numbers and all
non-number values are errors. -/
def deserializeU32 : Json → Option Nat
  | .intNum i => if 0 ≤ i ∧ i < (2 ^ 32 : Int) then some i.toNat else none
  | _ => none

/-- The field loop of the serde-derived Deserialize impl for
ProofRequest: walk the object's fields in order, filling the two
required slots.  A second occurrence of a known field is a duplicate
field error; an unknown field is skipped; a known field whose value
has the wrong type is an error; a missing required field at the end
of the object is an error. -/
def deserializeFields :
    List (String × Json) → Option Nat → Option String → Option ProofRequest
  | [], pid?, ph? =>
    match pid?, ph? with
    | some pid, some ph => some ⟨pid, ph⟩
    | _, _ => none
  | (k, v) :: rest, pid?, ph? =>
    if k = "proof_id" then
      match pid? with
      | some _ => none
      | none =>
        match deserializeU32 v with
        | some n => deserializeFields rest (some n) ph?
        | none => none
    else if k = "pdf_hash" then
      match ph? with
      | some _ => none
      | none =>
        match v with
        | .str s => deserializeFields rest pid? (some s)
        | _ => none
    else
      deserializeFields rest pid? ph?

/-- Deserialize a JSON body into a ProofRequest; anything but a JSON
object is an error. -/
def deserializeProofRequest : Json → Option ProofRequest
  | .obj fields => deserializeFields fields none none
  | _ => none

/-- Serialization of ProofResponse by the serde-derived Serialize
impl: an object with the four fields in declaration order. -/
def serializeProofResponse (r : ProofResponse) : Json :=
  .obj [("proof_id", .intNum (r.proof_id : Int)),
        ("pdf_hash", .str r.pdf_hash),
        ("zk_proof", .str r.zk_proof),
        ("status", .str r.status)]

/-- An HTTP response body: JSON for the handlers' normal answers,
plain text for the framework-generated rejection. -/
inductive Body where
  | json (j : Json) : Body
  | text (s : String) : Body

/-- Observable events of a handler invocation, in order: a line
printed to stdout, a timed suspension of the handling task, the HTTP
response sent back. -/
inductive Event where
  | logLine (line : String) : Event
  | sleepSecs (n : Nat) : Event
  | respond (status : Nat) (body : Body) : Event

/-- The body of `async fn generate_proof` after the Json extractor
succeeded: print the log line, sleep 2 seconds, answer 200 with the
serialized ProofResponse echoing proof_id and pdf_hash and carrying
the two constant strings. -/
def generate_proof (payload : ProofRequest) : List Event :=
  [ .logLine ("Received proof request for ID: " ++ toString payload.proof_id),
    .sleepSecs 2,
    .respond 200 (.json (serializeProofResponse
      { proof_id := payload.proof_id
        pdf_hash := payload.pdf_hash
        zk_proof := "mock_zk_proof_data_xyz123"
        status := "VERIFIED" })) ]

/-- Status code of axum's Json extractor rejection when the body does
not deserialize into the target type: 422 Unprocessable Entity. -/
def jsonRejectionStatus : Nat := 422

/-- The /generate route: run the Json extractor on the (already
syntactically parsed) body; on success run the handler, on failure
send the framework's rejection and never enter the handler. -/
def handleGenerate (body : Json) : List Event :=
  match deserializeProofRequest body with
  | some payload => generate_proof payload
  | none =>
    [.respond jsonRejectionStatus
      (.text "Failed to deserialize the JSON body into the target type")]

/-- The body of `async fn verify_proof`: the constant JSON object with
the single field valid set to true. -/
def verify_proof : Json := .obj [("valid", .bool true)]

/-- The /verify route: the handler takes no extractor, so the raw
request body (none models an empty body) is never read. -/
def handleVerify (_rawBody : Option String) : List Event :=
  [.respond 200 (.json verify_proof)]

/-- The response events of a trace, in order. -/
def responses (tr : List Event) : List (Nat × Body) :=
  tr.filterMap fun e =>
    match e with
    | .respond s b => some (s, b)
    | _ => none

/-- The stdout lines of a trace, in order. -/
def logLines (tr : List Event) : List String :=
  tr.filterMap fun e =>
    match e with
    | .logLine s => some s
    | _ => none

/-- The sleep durations of a trace, in order. -/
def sleeps (tr : List Event) : List Nat :=
  tr.filterMap fun e =>
    match e with
    | .sleepSecs n => some n
    | _ => none

/-- A sequence of /generate requests handled by the server: the
handlers close over no state, so the server is the pointwise map of
the route function over the request bodies. -/
def serveAll (bodies : List Json) : List (List Event) :=
  bodies.map handleGenerate

/-- On a body that deserializes, the /generate route sends exactly one
response: 200 with the serialized echo of the request and the two
constant strings. -/
theorem responses_handleGenerate (body : Json) (payload : ProofRequest)
    (h : deserializeProofRequest body = some payload) :
    responses (handleGenerate body) =
      [(200, .json (.obj
        [("proof_id", .intNum (payload.proof_id : Int)),
         ("pdf_hash", .str payload.pdf_hash),
         ("zk_proof", .str "mock_zk_proof_data_xyz123"),
         ("status", .str "VERIFIED")]))] := by
  have hh : handleGenerate body = generate_proof payload := by
    simp only [handleGenerate, h]
  rw [hh]; rfl

/-- C1: for every valid request to /generate, the handler sends
exactly one response, with status 200, whose proof_id and pdf_hash
echo the request's values exactly, whose zk_proof is the constant
string mock_zk_proof_data_xyz123 and whose status field is the
constant string VERIFIED. -/
theorem generate_echoes_and_constants (body : Json) (payload : ProofRequest)
    (h : deserializeProofRequest body = some payload) :
    responses (handleGenerate body) =
      [(200, .json (.obj
        [("proof_id", .intNum (payload.proof_id : Int)),
         ("pdf_hash", .str payload.pdf_hash),
         ("zk_proof", .str "mock_zk_proof_data_xyz123"),
         ("status", .str "VERIFIED")]))] :=
  responses_handleGenerate body payload h

/-- Witness for C1 at the spec's example request. -/
theorem generate_echoes_and_constants_witness :
    responses (handleGenerate
        (.obj [("proof_id", .intNum 42), ("pdf_hash", .str "abc123")])) =
      [(200, .json (.obj
        [("proof_id", .intNum 42),
         ("pdf_hash", .str "abc123"),
         ("zk_proof", .str "mock_zk_proof_data_xyz123"),
         ("status", .str "VERIFIED")]))] :=
  generate_echoes_and_constants _ ⟨42, "abc123"⟩ rfl

/-- C2: every call to /verify, whatever the body (none models an
empty body), sends exactly one response: status 200 with the JSON
object whose single field valid is true. -/
theorem verify_constant_response (rawBody : Option String) :
    responses (handleVerify rawBody) =
      [(200, .json (.obj [("valid", .bool true)]))] := rfl

/-- C5: the /verify response does not depend on the request body: any
two calls, with any two bodies, produce identical event traces. -/
theorem verify_ignores_body (b₁ b₂ : Option String) :
    handleVerify b₁ = handleVerify b₂ := rfl

/-- C3: whenever the /generate body fails to deserialize into
ProofRequest, the route sends exactly one response whose status is a
client error (4xx, in particular not 200); the handler never runs, and
the route function is total, so the process does not crash. -/
theorem malformed_generate_client_error (body : Json)
    (h : deserializeProofRequest body = none) :
    ∃ s b, responses (handleGenerate body) = [(s, b)] ∧
      400 ≤ s ∧ s < 500 ∧ s ≠ 200 := by
  have hh : handleGenerate body =
      [.respond jsonRejectionStatus
        (.text "Failed to deserialize the JSON body into the target type")] := by
    simp only [handleGenerate, h]
  refine ⟨jsonRejectionStatus,
    .text "Failed to deserialize the JSON body into the target type", ?_,
    by norm_num [jsonRejectionStatus], by norm_num [jsonRejectionStatus],
    by norm_num [jsonRejectionStatus]⟩
  rw [hh]; rfl

/-- Witness for C3 at a body whose proof_id is a string. -/
theorem malformed_generate_client_error_witness :
    deserializeProofRequest
        (.obj [("proof_id", .str "not-a-number"), ("pdf_hash", .str "abc")]) = none ∧
    ∃ s b, responses (handleGenerate
        (.obj [("proof_id", .str "not-a-number"), ("pdf_hash", .str "abc")])) = [(s, b)] ∧
      400 ≤ s ∧ s < 500 ∧ s ≠ 200 :=
  ⟨rfl, malformed_generate_client_error _ rfl⟩

/-- C10: no value-level validation beyond JSON types: proof_id 0 and
an empty pdf_hash are accepted, and the full trace is the normal one:
the log line, the 2-second sleep, and the 200 response echoing 0 and
the empty string with the two constant strings. -/
theorem zero_and_empty_accepted :
    handleGenerate (.obj [("proof_id", .intNum 0), ("pdf_hash", .str "")]) =
      [ .logLine "Received proof request for ID: 0",
        .sleepSecs 2,
        .respond 200 (.json (.obj
          [("proof_id", .intNum 0),
           ("pdf_hash", .str ""),
           ("zk_proof", .str "mock_zk_proof_data_xyz123"),
           ("status", .str "VERIFIED")])) ] := rfl

/-- C4: on every successfully parsed /generate request the handler
performs exactly one timed suspension, of exactly 2 seconds, and that
suspension occurs strictly before the response event in the trace: the
response is produced no earlier than 2 seconds after handling began. -/
theorem generate_delays_two_seconds (body : Json) (payload : ProofRequest)
    (h : deserializeProofRequest body = some payload) :
    sleeps (handleGenerate body) = [2] ∧
    ∃ i j : Nat, i < j ∧ (handleGenerate body)[i]? = some (Event.sleepSecs 2) ∧
      ∃ s b, (handleGenerate body)[j]? = some (Event.respond s b) := by
  have hh : handleGenerate body = generate_proof payload := by
    simp only [handleGenerate, h]
  rw [hh]
  exact ⟨rfl, 1, 2, by norm_num, rfl, 200,
    .json (serializeProofResponse
      { proof_id := payload.proof_id
        pdf_hash := payload.pdf_hash
        zk_proof := "mock_zk_proof_data_xyz123"
        status := "VERIFIED" }), rfl⟩

/-- Witness for C4 at a concrete request. -/
theorem generate_delays_two_seconds_witness :
    sleeps (handleGenerate
        (.obj [("proof_id", .intNum 1), ("pdf_hash", .str "deadbeef")])) = [2] ∧
    ∃ i j : Nat, i < j ∧
      (handleGenerate
        (.obj [("proof_id", .intNum 1), ("pdf_hash", .str "deadbeef")]))[i]? =
          some (Event.sleepSecs 2) ∧
      ∃ s b, (handleGenerate
        (.obj [("proof_id", .intNum 1), ("pdf_hash", .str "deadbeef")]))[j]? =
          some (Event.respond s b) :=
  generate_delays_two_seconds _ ⟨1, "deadbeef"⟩ rfl

/-- C7: on every successfully parsed /generate request the handler
writes exactly one line to stdout, the line contains the received
proof_id, and the whole trace consists of that log line, the sleep,
and the response: no other side effect occurs. -/
theorem generate_logs_proof_id (body : Json) (payload : ProofRequest)
    (h : deserializeProofRequest body = some payload) :
    logLines (handleGenerate body) =
      ["Received proof request for ID: " ++ toString payload.proof_id] ∧
    ∃ s b, handleGenerate body =
      [ .logLine ("Received proof request for ID: " ++ toString payload.proof_id),
        .sleepSecs 2,
        .respond s b ] := by
  have hh : handleGenerate body = generate_proof payload := by
    simp only [handleGenerate, h]
  rw [hh]
  exact ⟨rfl,
    200, .json (serializeProofResponse
      { proof_id := payload.proof_id
        pdf_hash := payload.pdf_hash
        zk_proof := "mock_zk_proof_data_xyz123"
        status := "VERIFIED" }), rfl⟩

/-- Witness for C7 at a concrete request. -/
theorem generate_logs_proof_id_witness :
    logLines (handleGenerate
        (.obj [("proof_id", .intNum 99), ("pdf_hash", .str "ff")])) =
      ["Received proof request for ID: " ++ toString (99 : Nat)] ∧
    ∃ s b, handleGenerate
        (.obj [("proof_id", .intNum 99), ("pdf_hash", .str "ff")]) =
      [ .logLine ("Received proof request for ID: " ++ toString (99 : Nat)),
        .sleepSecs 2,
        .respond s b ] :=
  generate_logs_proof_id _ ⟨99, "ff"⟩ rfl

/-- C8: request handling is stateless and deterministic.  The route
function is deterministic (equal bodies give equal traces), and a
server handling a sequence of requests gives each request the trace of
the route function on that request's body alone: appending a request
to any history yields the history's traces unchanged followed by the
new request's own trace, independent of the history. -/
theorem generate_stateless_deterministic :
    (∀ b₁ b₂ : Json, b₁ = b₂ → handleGenerate b₁ = handleGenerate b₂) ∧
    (∀ (history : List Json) (b : Json),
      serveAll (history ++ [b]) = serveAll history ++ [handleGenerate b]) := by
  refine ⟨fun b₁ b₂ hb => hb ▸ rfl, fun history b => ?_⟩
  simp [serveAll]

/-- Witness for C8: two equal concrete bodies give the same trace, and
a concrete one-request history leaves the appended request's trace
unchanged. -/
theorem generate_stateless_deterministic_witness :
    handleGenerate (.obj [("proof_id", .intNum 3), ("pdf_hash", .str "aa")]) =
      handleGenerate (.obj [("proof_id", .intNum 3), ("pdf_hash", .str "aa")]) ∧
    serveAll ([.null] ++ [.obj [("proof_id", .intNum 3), ("pdf_hash", .str "aa")]]) =
      serveAll [.null] ++
        [handleGenerate (.obj [("proof_id", .intNum 3), ("pdf_hash", .str "aa")])] :=
  ⟨generate_stateless_deterministic.1 _ _ rfl,
   generate_stateless_deterministic.2 [.null] _⟩

/-- C6: the proof_id field is a true u32.  Every integer JSON number
in the interval from 0 to 2^32 - 1 is accepted and echoed back exactly
(as the same integer, no wraparound or truncation); an integer below 0
or at least 2^32 fails deserialization, and so does a non-integer
(fractional) JSON number. -/
theorem proof_id_u32_range (i : Int) (s : String) :
    (0 ≤ i → i < 2 ^ 32 →
      deserializeProofRequest
          (.obj [("proof_id", .intNum i), ("pdf_hash", .str s)]) =
        some ⟨i.toNat, s⟩ ∧
      responses (handleGenerate
          (.obj [("proof_id", .intNum i), ("pdf_hash", .str s)])) =
        [(200, .json (.obj
          [("proof_id", .intNum i),
           ("pdf_hash", .str s),
           ("zk_proof", .str "mock_zk_proof_data_xyz123"),
           ("status", .str "VERIFIED")]))]) ∧
    ((i < 0 ∨ (2 ^ 32 : Int) ≤ i) →
      deserializeProofRequest
          (.obj [("proof_id", .intNum i), ("pdf_hash", .str s)]) = none) ∧
    (∀ q : Rat,
      deserializeProofRequest
          (.obj [("proof_id", .floatNum q), ("pdf_hash", .str s)]) = none) := by
  refine ⟨fun h0 h1 => ?_, fun hout => ?_, fun q => rfl⟩
  · have hd : deserializeU32 (.intNum i) = some i.toNat := by
      simp only [deserializeU32, if_pos (⟨h0, h1⟩ : 0 ≤ i ∧ i < (2 ^ 32 : Int))]
    have hreq : deserializeProofRequest
        (.obj [("proof_id", .intNum i), ("pdf_hash", .str s)]) =
        some ⟨i.toNat, s⟩ := by
      show (match deserializeU32 (.intNum i) with
            | some n => deserializeFields [("pdf_hash", .str s)] (some n) none
            | none => none) = some ⟨i.toNat, s⟩
      rw [hd]
      rfl
    refine ⟨hreq, ?_⟩
    have := responses_handleGenerate _ _ hreq
    rw [this]
    have hto : ((i.toNat : Int)) = i := Int.toNat_of_nonneg h0
    rw [hto]
  · have hcond : ¬(0 ≤ i ∧ i < (2 ^ 32 : Int)) := by
      rintro ⟨h0, h1⟩
      rcases hout with h | h <;> omega
    have hd : deserializeU32 (.intNum i) = none := by
      simp only [deserializeU32, if_neg hcond]
    show (match deserializeU32 (.intNum i) with
          | some n => deserializeFields [("pdf_hash", .str s)] (some n) none
          | none => none) = none
    rw [hd]

/-- Witness for C6: 7 is accepted and echoed, while 2^32, -1 and the
fractional number one half are all rejected. -/
theorem proof_id_u32_range_witness :
    deserializeProofRequest
        (.obj [("proof_id", .intNum 7), ("pdf_hash", .str "h")]) =
      some ⟨7, "h"⟩ ∧
    deserializeProofRequest
        (.obj [("proof_id", .intNum (2 ^ 32)), ("pdf_hash", .str "h")]) = none ∧
    deserializeProofRequest
        (.obj [("proof_id", .intNum (-1)), ("pdf_hash", .str "h")]) = none ∧
    deserializeProofRequest
        (.obj [("proof_id", .floatNum (1 / 2)), ("pdf_hash", .str "h")]) = none :=
  ⟨((proof_id_u32_range 7 "h").1 (by norm_num) (by norm_num)).1,
   (proof_id_u32_range (2 ^ 32) "h").2.1 (Or.inr (by norm_num)),
   (proof_id_u32_range (-1) "h").2.1 (Or.inl (by norm_num)),
   (proof_id_u32_range 0 "h").2.2 (1 / 2)⟩

/-- One step of the field loop on a field named proof_id with the
slot still empty: deserialize the value as a u32 and continue. -/
theorem deserializeFields_cons_proof_id (v : Json) (rest : List (String × Json))
    (ph? : Option String) :
    deserializeFields (("proof_id", v) :: rest) none ph? =
      (match deserializeU32 v with
       | some n => deserializeFields rest (some n) ph?
       | none => none) := rfl

/-- One step of the field loop on a field named pdf_hash holding a
string, with the slot still empty: record the string and continue. -/
theorem deserializeFields_cons_pdf_hash (rest : List (String × Json))
    (pid? : Option Nat) (s : String) :
    deserializeFields (("pdf_hash", .str s) :: rest) pid? none =
      deserializeFields rest pid? (some s) := rfl

/-- Once both required fields are filled, the field loop skips every
remaining field whose name is neither proof_id nor pdf_hash and
succeeds with the filled values. -/
theorem deserializeFields_skips_unknown (extra : List (String × Json))
    (hextra : ∀ p ∈ extra, p.1 ≠ "proof_id" ∧ p.1 ≠ "pdf_hash")
    (pid : Nat) (ph : String) :
    deserializeFields extra (some pid) (some ph) = some ⟨pid, ph⟩ := by
  induction extra with
  | nil => rfl
  | cons p rest ih =>
    obtain ⟨k, v⟩ := p
    obtain ⟨h1, h2⟩ := hextra (k, v) (List.mem_cons_self _ _)
    show (if k = "proof_id" then _ else if k = "pdf_hash" then _ else
      deserializeFields rest (some pid) (some ph)) = some ⟨pid, ph⟩
    rw [if_neg h1, if_neg h2]
    exact ih fun q hq => hextra q (List.mem_cons_of_mem _ hq)

/-- C9: a /generate body with the two required fields plus any
additional fields under other names still deserializes, the extra
fields being silently ignored, and the route answers the normal 200
success response echoing the two required fields. -/
theorem unknown_fields_ignored (pid : Nat) (hpid : (pid : Int) < 2 ^ 32)
    (s : String) (extra : List (String × Json))
    (hextra : ∀ p ∈ extra, p.1 ≠ "proof_id" ∧ p.1 ≠ "pdf_hash") :
    deserializeProofRequest
        (.obj (("proof_id", .intNum pid) :: ("pdf_hash", .str s) :: extra)) =
      some ⟨pid, s⟩ ∧
    responses (handleGenerate
        (.obj (("proof_id", .intNum pid) :: ("pdf_hash", .str s) :: extra))) =
      [(200, .json (.obj
        [("proof_id", .intNum pid),
         ("pdf_hash", .str s),
         ("zk_proof", .str "mock_zk_proof_data_xyz123"),
         ("status", .str "VERIFIED")]))] := by
  have hd : deserializeU32 (.intNum pid) = some pid := by
    have : ((pid : Int)).toNat = pid := Int.toNat_natCast pid
    simp only [deserializeU32,
      if_pos (⟨Int.natCast_nonneg pid, hpid⟩ : 0 ≤ (pid : Int) ∧ (pid : Int) < 2 ^ 32),
      this]
  have hreq : deserializeProofRequest
      (.obj (("proof_id", .intNum pid) :: ("pdf_hash", .str s) :: extra)) =
      some ⟨pid, s⟩ := by
    show deserializeFields
        (("proof_id", .intNum pid) :: ("pdf_hash", .str s) :: extra) none none =
      some ⟨pid, s⟩
    rw [deserializeFields_cons_proof_id, hd]
    show deserializeFields (("pdf_hash", .str s) :: extra) (some pid) none =
      some ⟨pid, s⟩
    rw [deserializeFields_cons_pdf_hash]
    exact deserializeFields_skips_unknown extra hextra pid s
  exact ⟨hreq, responses_handleGenerate _ _ hreq⟩

/-- Witness for C9: a body with an extra field named extra_field is
accepted and answered normally. -/
theorem unknown_fields_ignored_witness :
    deserializeProofRequest
        (.obj [("proof_id", .intNum 5), ("pdf_hash", .str "hh"),
               ("extra_field", .bool true)]) = some ⟨5, "hh"⟩ ∧
    responses (handleGenerate
        (.obj [("proof_id", .intNum 5), ("pdf_hash", .str "hh"),
               ("extra_field", .bool true)])) =
      [(200, .json (.obj
        [("proof_id", .intNum 5),
         ("pdf_hash", .str "hh"),
         ("zk_proof", .str "mock_zk_proof_data_xyz123"),
         ("status", .str "VERIFIED")]))] :=
  unknown_fields_ignored 5 (by norm_num) "hh" [("extra_field", .bool true)]
    (by
      intro p hp
      rcases List.mem_singleton.mp hp with h
      rw [h]
      exact ⟨by decide, by decide⟩)

end Zepor
